import Mathlib

/-!
Verification of `ba final_lva2025/scripts/identify_top_8_rotation.py`.

The script is a pandas batch pipeline: load player box scores, filter to the
Las Vegas Aces, normalize the minutes column, aggregate per player, rank by
total minutes, and derive per-game and shooting-percentage metrics.

This file shallowly embeds the pipeline's data model and operations:
  * cell values of the minutes column are an inductive `Cell` (missing value,
    Python string as a `List Char`, numeric value as an exact rational);
  * Python `int(...)` / `float(...)` parsing is modelled on the grammar the
    data exercises (optional sign, decimal digits, optional fractional part;
    exponents, inf/nan spellings, underscores and surrounding whitespace are
    outside the modelled grammar);
  * pandas floating-point values are idealized as exact rationals, except in
    the shooting-percentage stage where division by zero matters and values
    are `PdFloat` (a rational, NaN, or a signed infinity, following IEEE/numpy
    division);
  * the script-level control flow (`try/except` over `Series.apply`,
    column-presence guards, `exit(1)` aborts) is explicit: fallible stages
    return `Except RunError`.
-/

/-- One cell of the raw minutes column: missing (NaN/None), a Python string,
or a numeric value. -/
inductive Cell
  | na
  | str (s : List Char)
  | num (q : ℚ)
deriving DecidableEq

/-- Numeric value of a digit string, most significant digit first. -/
def digitsToNat (l : List Char) : ℕ :=
  l.foldl (fun a c => 10 * a + (c.toNat - 48)) 0

/-- Whether every character is a decimal digit. -/
def allDigits (l : List Char) : Bool :=
  l.all Char.isDigit

/-- A nonempty all-digit string, as a natural number. -/
def digitsVal (l : List Char) : Option ℕ :=
  if l.isEmpty then none
  else if allDigits l then some (digitsToNat l) else none

/-- Python `int(s)` on the modelled grammar: optional sign then digits. -/
def pyInt (s : List Char) : Option ℤ :=
  match s with
  | [] => none
  | c :: rest =>
    if c = '+' then (digitsVal rest).map (fun n => (n : ℤ))
    else if c = '-' then (digitsVal rest).map (fun n => -(n : ℤ))
    else (digitsVal (c :: rest)).map (fun n => (n : ℤ))

/-- Python's `str.split(sep)` for a one-character separator. -/
def splitOnChar (sep : Char) : List Char → List (List Char)
  | [] => [[]]
  | c :: cs =>
    let r := splitOnChar sep cs
    if c = sep then [] :: r
    else
      match r with
      | [] => [[c]]
      | h :: t => (c :: h) :: t

/-- Value of a fractional digit string: `digits / 10 ^ length`. -/
def fracVal (l : List Char) : ℚ :=
  (digitsToNat l : ℚ) / ((10 : ℚ) ^ l.length)

/-- Unsigned part of Python `float(s)`: `digits`, `digits.digits`,
`digits.` or `.digits`. -/
def pyFloatCore (s : List Char) : Option ℚ :=
  match splitOnChar '.' s with
  | [ip] => (digitsVal ip).map (fun n => (n : ℚ))
  | [ip, fp] =>
    if ip.isEmpty && fp.isEmpty then none
    else if allDigits ip && allDigits fp then
      some ((digitsToNat ip : ℚ) + fracVal fp)
    else none
  | _ => none

/-- Python `float(s)` on the modelled grammar: optional sign then an
unsigned decimal literal. -/
def pyFloat (s : List Char) : Option ℚ :=
  match s with
  | [] => none
  | c :: rest =>
    if c = '+' then pyFloatCore rest
    else if c = '-' then (pyFloatCore rest).map (fun q => -q)
    else pyFloatCore (c :: rest)

/-- The first two `':'`-separated segments of a string, both parsed with
Python `int`; `none` when either `int(...)` raises.  This is
`int(str(x).split(':')[0])` and `int(str(x).split(':')[1])` from line 171. -/
def colonParse (s : List Char) : Option (ℤ × ℤ) :=
  match splitOnChar ':' s with
  | p0 :: p1 :: _ =>
    match pyInt p0, pyInt p1 with
    | some m, some ss => some (m, ss)
    | _, _ => none
  | _ => none

/-- The per-cell lambda of lines 170-174: colon strings become
`minutes + seconds/60`, other non-missing values go through `float(...)`,
missing values become `0`.  `none` models the lambda raising. -/
def cellConvert (c : Cell) : Option ℚ :=
  match c with
  | Cell.na => some 0
  | Cell.num q => some q
  | Cell.str s =>
    if ':' ∈ s then
      (colonParse s).map (fun p => (p.1 : ℚ) + (p.2 : ℚ) / 60)
    else pyFloat s

/-- Coercion per cell, `pd.to_numeric(col, errors='coerce').fillna(0)`
(lines 176 and 178): numbers pass through, missing and unparseable
values become 0. -/
def coerceCell (c : Cell) : ℚ :=
  match c with
  | Cell.na => 0
  | Cell.num q => q
  | Cell.str s => (pyFloat s).getD 0

/-- pandas dtype test of line 167: a column holding any Python string is
`object` dtype; an all-numeric (or numeric-with-NaN) column is numeric. -/
def isObjectDtype (cells : List Cell) : Bool :=
  cells.any (fun c =>
    match c with
    | Cell.str _ => true
    | _ => false)

/-- Whether `Series.apply` with the per-cell lambda succeeds on every cell
of the column (a single raising cell aborts the whole `apply`). -/
def allConvertible (cells : List Cell) : Bool :=
  cells.all (fun c => (cellConvert c).isSome)

/-- The Time Normalizer, lines 166-178: on an `object` column try the
per-cell lambda over the whole column; if any cell raises, fall back to
blanket numeric coercion of the entire column; non-`object` columns are
coerced directly. -/
def minutes_decimal (cells : List Cell) : List ℚ :=
  if isObjectDtype cells then
    if allConvertible cells then cells.map (fun c => (cellConvert c).getD 0)
    else cells.map coerceCell
  else cells.map coerceCell

/-! ## Entity Filter (lines 26-29 and 75-104) -/

/-- One row of the raw player box table, restricted to the fields the team
filter inspects.  `team_display_name` is optional because
`str.contains(..., na=False)` treats missing names as non-matching. -/
structure TRow where
  team_id : List Char
  team_display_name : Option (List Char)
  team_abbreviation : List Char
deriving DecidableEq

/-- The loaded table: its column names and its rows. -/
structure BoxTable where
  cols : List String
  rows : List TRow
deriving DecidableEq

/-- Line 28: `LVA_TEAM_IDS = ["16"]`. -/
def LVA_TEAM_IDS : List (List Char) := ["16".toList]

/-- Line 29: `LVA_TEAM_NAMES`. -/
def LVA_TEAM_NAMES : List (List Char) :=
  ["Las Vegas Aces".toList, "LV Aces".toList, "LVA".toList, "Las Vegas".toList]

/-- Lowercase every character. -/
def lowerStr (l : List Char) : List Char := l.map Char.toLower

/-- Whether `pat` begins the string `s`. -/
def leadsWith : List Char → List Char → Bool
  | [], _ => true
  | _ :: _, [] => false
  | a :: as, b :: bs => a == b && leadsWith as bs

/-- Whether `pat` occurs contiguously inside `s`. -/
def containsSub (pat s : List Char) : Bool :=
  match s with
  | [] => pat.isEmpty
  | _ :: rest => leadsWith pat s || containsSub pat rest

/-- The lowercased alternatives of the regex `'Vegas|Aces|LV'` (line 90). -/
def FRAGMENTS : List (List Char) := ["vegas".toList, "aces".toList, "lv".toList]

/-- Predicate `str.contains('Vegas|Aces|LV', case=False, na=False)` for one row's
display name. -/
def matchesFragment (name : Option (List Char)) : Bool :=
  match name with
  | some n => FRAGMENTS.any (fun f => containsSub f (lowerStr n))
  | none => false

/-- Predicate `df['team_id'].isin(LVA_TEAM_IDS)` for one row (line 80). -/
def byIdPred (r : TRow) : Bool := decide (r.team_id ∈ LVA_TEAM_IDS)

/-- Predicate `df['team_display_name'].isin(LVA_TEAM_NAMES)` for one row (line 85);
a missing name is not in the list. -/
def byNamePred (r : TRow) : Bool :=
  match r.team_display_name with
  | some n => decide (n ∈ LVA_TEAM_NAMES)
  | none => false

/-- Partial-match predicate of line 90. -/
def byFragPred (r : TRow) : Bool := matchesFragment r.team_display_name

/-- Predicate `df['team_abbreviation'].isin(['LV', 'LVA'])` for one row (line 95). -/
def byAbbrPred (r : TRow) : Bool :=
  decide (r.team_abbreviation ∈ ["LV".toList, "LVA".toList])

/-- The run-abort conditions of the script, each `print(...)` + `exit(1)` or
a pandas exception: the team filter found nothing (lines 98-104), the player
id/name columns are missing (lines 148-151), the minutes column is missing
(lines 162-164), or pandas raised a `KeyError` for a column used during
aggregation (line 183). -/
inductive RunError
  | entityNotFound (team_cols : List String)
  | missingIdName (available : List String)
  | missingMinutes
  | keyError (key : String)
deriving DecidableEq

instance {ε α : Type} [DecidableEq ε] [DecidableEq α] : DecidableEq (Except ε α) := fun a b =>
  match a, b with
  | Except.ok x, Except.ok y =>
    if h : x = y then isTrue (by rw [h]) else isFalse (by simp [h])
  | Except.error x, Except.error y =>
    if h : x = y then isTrue (by rw [h]) else isFalse (by simp [h])
  | Except.ok _, Except.error _ => isFalse (by simp)
  | Except.error _, Except.ok _ => isFalse (by simp)

/-- Line 102: `[col for col in df.columns if 'team' in col.lower()]`. -/
def teamColsOf (t : BoxTable) : List String :=
  t.cols.filter (fun c => containsSub "team".toList (lowerStr c.toList))

/-- The Entity Filter, lines 76-104: four approaches tried in order, each
guarded on its column being present and only attempted while the running
result is still empty; all-empty ends the run (`exit(1)`). -/
def df_lva (t : BoxTable) : Except RunError (List TRow) :=
  let d0 : List TRow := []
  let d1 := if "team_id" ∈ t.cols then t.rows.filter byIdPred else d0
  let d2 := if d1 = [] ∧ "team_display_name" ∈ t.cols then
      t.rows.filter byNamePred else d1
  let d3 := if d2 = [] ∧ "team_display_name" ∈ t.cols then
      t.rows.filter byFragPred else d2
  let d4 := if d3 = [] ∧ "team_abbreviation" ∈ t.cols then
      t.rows.filter byAbbrPred else d3
  if d4 = [] then Except.error (RunError.entityNotFound (teamColsOf t))
  else Except.ok d4

/-- Strategy 1 of the claim: exact match on the identifier field; a missing
column yields zero rows. -/
def strat1 (t : BoxTable) : List TRow :=
  if "team_id" ∈ t.cols then t.rows.filter byIdPred else []

/-- Strategy 2: exact match of the display-name field against the alias set. -/
def strat2 (t : BoxTable) : List TRow :=
  if "team_display_name" ∈ t.cols then t.rows.filter byNamePred else []

/-- Strategy 3: case-insensitive substring match on the display-name field. -/
def strat3 (t : BoxTable) : List TRow :=
  if "team_display_name" ∈ t.cols then t.rows.filter byFragPred else []

/-- Strategy 4: exact match of the abbreviation field against short codes. -/
def strat4 (t : BoxTable) : List TRow :=
  if "team_abbreviation" ∈ t.cols then t.rows.filter byAbbrPred else []

/-- The result of the first strategy producing at least one row, if any. -/
def firstHit (t : BoxTable) : Option (List TRow) :=
  [strat1 t, strat2 t, strat3 t, strat4 t].find? (fun l => decide (l ≠ []))

/-! ## Schema Resolver (lines 134-164) -/

/-- Player-identifier alias list (line 138). -/
def ID_ALIASES : List String := ["athlete_id", "player_id", "id"]

/-- Player display-name alias list (line 143). -/
def NAME_ALIASES : List String := ["athlete_display_name", "player_name", "name"]

/-- Minutes-column alias list (line 157). -/
def MIN_ALIASES : List String := ["minutes", "min", "mp"]

/-- First alias present among the dataset's columns (the `for`/`break`
loops of lines 138-146 and 157-160). -/
def findFirstCol (aliases cols : List String) : Option String :=
  aliases.find? (fun a => decide (a ∈ cols))

/-- Lines 134-164: resolve the player id and name columns (one combined
check printing the available columns on failure) and then the minutes
column (whose failure message carries no column list).  The game-id column
is never checked here. -/
def resolveSchema (cols : List String) :
    Except RunError (String × String × String) :=
  match findFirstCol ID_ALIASES cols, findFirstCol NAME_ALIASES cols with
  | some idc, some namec =>
    match findFirstCol MIN_ALIASES cols with
    | some minc => Except.ok (idc, namec, minc)
    | none => Except.error RunError.missingMinutes
  | _, _ => Except.error (RunError.missingIdName cols)

/-! ## Aggregator (lines 181-186) -/

/-- A filtered, time-normalized player-game row, restricted to the fields
the aggregation reads. -/
structure Row where
  athlete_id : ℤ
  athlete_display_name : List Char
  game_id : ℤ
  minutes_decimal_val : ℚ
deriving DecidableEq

/-- The `groupby` key of line 181: the id and display-name pair. -/
def rowKey (r : Row) : ℤ × List Char := (r.athlete_id, r.athlete_display_name)

/-- The rows of one group. -/
def groupRows (rows : List Row) (k : ℤ × List Char) : List Row :=
  rows.filter (fun r => decide (rowKey r = k))

/-- One output record of the aggregation, after the rename of line 186. -/
structure Summary where
  player_id : ℤ
  player_name : List Char
  total_minutes : ℚ
  games : ℕ
deriving DecidableEq

/-- Lines 181-186: group by `(player_id, player_name)`, summing
`minutes_decimal` and counting distinct `game_id` values (`nunique`).
Groups are listed in first-occurrence order; pandas emits them sorted by
key, an ordering none of the verified claims depend on. -/
def player_summary (rows : List Row) : List Summary :=
  ((rows.map rowKey).dedup).map (fun k =>
    ⟨k.1, k.2,
     ((groupRows rows k).map Row.minutes_decimal_val).sum,
     ((groupRows rows k).map Row.game_id).dedup.length⟩)

/-- The pandas `KeyError` behavior of the aggregation of lines 181-184:
`game_id` is consumed by `agg` without any prior schema check, so its
absence surfaces only here. -/
def aggregateStep (cols : List String) (rows : List Row) :
    Except RunError (List Summary) :=
  if "game_id" ∈ cols then Except.ok (player_summary rows)
  else Except.error (RunError.keyError "game_id")

/-! ## Metric Deriver (lines 250-258) -/

/-- A pandas float64 cell as produced by the percentage divisions: a real
value (idealized as an exact rational), `NaN` (what pandas treats as null),
or a signed infinity (which pandas does not treat as null). -/
inductive PdFloat
  | val (q : ℚ)
  | nan
  | inf
  | ninf
deriving DecidableEq

/-- numpy float64 division as used on the summed counters: `0/0` is NaN and
`±x/0` is a signed infinity. -/
def pdDiv (m a : ℚ) : PdFloat :=
  if a = 0 then
    if m = 0 then PdFloat.nan else if 0 < m then PdFloat.inf else PdFloat.ninf
  else PdFloat.val (m / a)

/-- Lines 250-258: the shooting-percentage columns added to
`detailed_stats`.  `cols` is the set of summed stat columns present and
`sums` the per-player summed value of each.  Field-goal and three-point
pairs are checked long spelling first, then short; no free-throw
percentage is computed anywhere in the script. -/
def detailed_stats_pcts (cols : List String) (sums : String → ℚ) :
    List (String × PdFloat) :=
  (if "field_goals_made" ∈ cols ∧ "field_goals_attempted" ∈ cols then
    [("fg_pct", pdDiv (sums "field_goals_made") (sums "field_goals_attempted"))]
   else if "fgm" ∈ cols ∧ "fga" ∈ cols then
    [("fg_pct", pdDiv (sums "fgm") (sums "fga"))]
   else [])
  ++
  (if "three_point_field_goals_made" ∈ cols ∧
      "three_point_field_goals_attempted" ∈ cols then
    [("fg3_pct", pdDiv (sums "three_point_field_goals_made")
        (sums "three_point_field_goals_attempted"))]
   else if "fg3m" ∈ cols ∧ "fg3a" ∈ cols then
    [("fg3_pct", pdDiv (sums "fg3m") (sums "fg3a"))]
   else [])

/-! ## Claim statements and auxiliary predicates -/

/-- Executable sufficient condition for one cell to normalize to a
non-negative number of minutes on every path of the Time Normalizer: the
cell's numeric content, under whichever parse applies, is non-negative. -/
def cellNonnegB (c : Cell) : Bool :=
  match c with
  | Cell.na => true
  | Cell.num q => decide (0 ≤ q)
  | Cell.str s =>
    (match pyFloat s with
     | some q => decide (0 ≤ q)
     | none => true)
    &&
    (match colonParse s with
     | some p => decide (0 ≤ p.1) && decide (0 ≤ p.2)
     | none => true)

/-- C1 as stated: a `"M:SS"` cell normalizes to `M + SS/60` regardless of
what values appear in the other rows of the same run. -/
def timeColonClaim : Prop :=
  ∀ (cells : List Cell) (i : ℕ) (s a b : List Char) (m ss : ℤ),
    cells[i]? = some (Cell.str s) → ':' ∈ s → splitOnChar ':' s = [a, b] →
    pyInt a = some m → pyInt b = some ss → 0 ≤ m → 0 ≤ ss → ss < 60 →
    (minutes_decimal cells)[i]? = some ((m : ℚ) + (ss : ℚ) / 60)

/-- C9 as stated: every output of the Time Normalizer is non-negative. -/
def timeNonnegClaim : Prop :=
  ∀ cells : List Cell, ∀ q ∈ minutes_decimal cells, 0 ≤ q

/-- The percentage value C7 prescribes: `made/attempted`, and null (NaN)
whenever `attempted = 0`. -/
def pctOfSpec (m a : ℚ) : PdFloat :=
  if a = 0 then PdFloat.nan else PdFloat.val (m / a)

/-- C7 as stated: each of the three made/attempted pairs that is present
(under either alias spelling, long spelling first) yields its percentage
column, equal to `made/attempted` and null when `attempted = 0`. -/
def shootingPctClaim : Prop :=
  ∀ (cols : List String) (sums : String → ℚ),
    (("field_goals_made" ∈ cols ∧ "field_goals_attempted" ∈ cols) →
      (detailed_stats_pcts cols sums).lookup "fg_pct" =
        some (pctOfSpec (sums "field_goals_made") (sums "field_goals_attempted")))
    ∧ (("three_point_field_goals_made" ∈ cols ∧
        "three_point_field_goals_attempted" ∈ cols) →
      (detailed_stats_pcts cols sums).lookup "fg3_pct" =
        some (pctOfSpec (sums "three_point_field_goals_made")
          (sums "three_point_field_goals_attempted")))
    ∧ (("free_throws_made" ∈ cols ∧ "free_throws_attempted" ∈ cols) →
      (detailed_stats_pcts cols sums).lookup "ft_pct" =
        some (pctOfSpec (sums "free_throws_made") (sums "free_throws_attempted")))

/-- Whether a run error is a `MissingRequiredFieldError`-style report that
carries the available field names, as C3 requires. -/
def reportsMissingField : RunError → List String → Prop
  | RunError.missingIdName available, cols => available = cols
  | _, _ => False

/-- C3 as stated: whenever any of the four required roles (player id,
display name, time-played, game id) cannot be resolved from the columns,
the run aborts before any aggregation with a configuration error that
reports the available field names. -/
def requiredFieldsClaim : Prop :=
  ∀ cols : List String,
    (findFirstCol ID_ALIASES cols = none ∨ findFirstCol NAME_ALIASES cols = none ∨
     findFirstCol MIN_ALIASES cols = none ∨ "game_id" ∉ cols) →
    ∃ e, resolveSchema cols = Except.error e ∧ reportsMissingField e cols

/-! ## Helper lemmas -/

theorem mem_splitOnChar {sep c : Char} {l : List Char} (h : c ∈ l) :
    c = sep ∨ ∃ p ∈ splitOnChar sep l, c ∈ p := by
  induction l with
  | nil => cases h
  | cons a l ih =>
    rcases List.mem_cons.mp h with rfl | hcl
    · by_cases ha : c = sep
      · exact Or.inl ha
      · right
        unfold splitOnChar
        rw [if_neg ha]
        cases hr : splitOnChar sep l with
        | nil => exact ⟨[c], List.mem_singleton_self _, List.mem_singleton_self _⟩
        | cons hh tt =>
          exact ⟨c :: hh, List.mem_cons_self _ _, List.mem_cons_self _ _⟩
    · rcases ih hcl with hsep | ⟨p, hp, hcp⟩
      · exact Or.inl hsep
      · right
        unfold splitOnChar
        by_cases ha : a = sep
        · rw [if_pos ha]
          exact ⟨p, List.mem_cons_of_mem _ hp, hcp⟩
        · rw [if_neg ha]
          cases hr : splitOnChar sep l with
          | nil => rw [hr] at hp; cases hp
          | cons hh tt =>
            rw [hr] at hp
            rcases List.mem_cons.mp hp with rfl | hptt
            · exact ⟨a :: p, List.mem_cons_self _ _, List.mem_cons_of_mem _ hcp⟩
            · exact ⟨p, List.mem_cons_of_mem _ hptt, hcp⟩

theorem digitsVal_allDigits {l : List Char} {n : ℕ} (h : digitsVal l = some n) :
    allDigits l = true := by
  unfold digitsVal at h
  by_cases he : l.isEmpty
  · rw [if_pos he] at h; cases h
  · rw [if_neg he] at h
    by_cases hd : allDigits l
    · exact hd
    · rw [if_neg hd] at h; cases h

theorem pyFloatCore_chars {s : List Char} {q : ℚ} (h : pyFloatCore s = some q) :
    ∀ c ∈ s, c.isDigit = true ∨ c = '.' := by
  intro c hc
  unfold pyFloatCore at h
  rcases @mem_splitOnChar '.' c s hc with hdot | ⟨p, hp, hcp⟩
  · exact Or.inr hdot
  · left
    cases hsplit : splitOnChar '.' s with
    | nil => rw [hsplit] at hp; cases hp
    | cons ip rest =>
      rw [hsplit] at h hp
      cases rest with
      | nil =>
        dsimp only at h
        cases hdv : digitsVal ip with
        | none => rw [hdv] at h; cases h
        | some n =>
          have hall := digitsVal_allDigits hdv
          rcases List.mem_cons.mp hp with rfl | hpnil
          · exact List.all_eq_true.mp hall c hcp
          · cases hpnil
      | cons fp rest2 =>
        cases rest2 with
        | nil =>
          dsimp only at h
          by_cases hemp : ip.isEmpty && fp.isEmpty
          · rw [if_pos hemp] at h; cases h
          · rw [if_neg hemp] at h
            by_cases hall : allDigits ip && allDigits fp
            · have hip := (Bool.and_eq_true _ _).mp hall |>.1
              have hfp := (Bool.and_eq_true _ _).mp hall |>.2
              rcases List.mem_cons.mp hp with rfl | hp2
              · exact List.all_eq_true.mp hip c hcp
              · rcases List.mem_cons.mp hp2 with rfl | hp3
                · exact List.all_eq_true.mp hfp c hcp
                · cases hp3
            · rw [if_neg hall] at h; cases h
        | cons _ _ => cases h

theorem pyFloat_chars {s : List Char} {q : ℚ} (h : pyFloat s = some q) :
    ∀ c ∈ s, c.isDigit = true ∨ c = '.' ∨ c = '+' ∨ c = '-' := by
  intro c hc
  cases s with
  | nil => cases hc
  | cons c0 rest =>
    unfold pyFloat at h
    dsimp only at h
    by_cases hp : c0 = '+'
    · rw [if_pos hp] at h
      rcases List.mem_cons.mp hc with rfl | hcr
      · exact Or.inr (Or.inr (Or.inl hp))
      · rcases pyFloatCore_chars h c hcr with hd | hdot
        · exact Or.inl hd
        · exact Or.inr (Or.inl hdot)
    · rw [if_neg hp] at h
      by_cases hm : c0 = '-'
      · rw [if_pos hm] at h
        rcases List.mem_cons.mp hc with rfl | hcr
        · exact Or.inr (Or.inr (Or.inr hm))
        · cases hcore : pyFloatCore rest with
          | none => rw [hcore] at h; cases h
          | some q2 =>
            rcases pyFloatCore_chars hcore c hcr with hd | hdot
            · exact Or.inl hd
            · exact Or.inr (Or.inl hdot)
      · rw [if_neg hm] at h
        rcases pyFloatCore_chars h c hc with hd | hdot
        · exact Or.inl hd
        · exact Or.inr (Or.inl hdot)

theorem pyFloat_colon_none {s : List Char} (h : ':' ∈ s) : pyFloat s = none := by
  cases hf : pyFloat s with
  | none => rfl
  | some q =>
    rcases pyFloat_chars hf ':' h with hd | hdot | hplus | hminus
    · simp at hd
    · cases hdot
    · cases hplus
    · cases hminus

theorem isObjectDtype_of_mem {cells : List Cell} {s : List Char}
    (h : Cell.str s ∈ cells) : isObjectDtype cells = true :=
  List.any_eq_true.mpr ⟨_, h, rfl⟩

theorem cellConvert_str_fails {s : List Char} (hns : ':' ∉ s)
    (hpf : pyFloat s = none) : cellConvert (Cell.str s) = none := by
  unfold cellConvert
  dsimp only
  rw [if_neg hns]
  exact hpf

theorem allConvertible_eq_false {cells : List Cell} {s : List Char}
    (hmem : Cell.str s ∈ cells) (hnone : cellConvert (Cell.str s) = none) :
    allConvertible cells = false := by
  cases hall : allConvertible cells with
  | false => rfl
  | true =>
    have := List.all_eq_true.mp hall _ hmem
    rw [hnone] at this
    cases this

theorem minutes_decimal_coerce_eq {cells : List Cell}
    (hall : allConvertible cells = false) :
    minutes_decimal cells = cells.map coerceCell := by
  unfold minutes_decimal
  by_cases hobj : isObjectDtype cells = true
  · simp [hobj, hall]
  · simp [Bool.of_not_eq_true hobj]

theorem minutes_decimal_convert_eq {cells : List Cell}
    (hobj : isObjectDtype cells = true) (hall : allConvertible cells = true) :
    minutes_decimal cells = cells.map (fun c => (cellConvert c).getD 0) := by
  unfold minutes_decimal
  simp [hobj, hall]

/-! ## C1: colon-format normalization is not row-local -/

/-- C1 (counterexample): as stated the claim is false — with
`["5:30", "DNP"]` in the same column, the per-cell conversion raises on
`"DNP"`, the whole column is blanket-coerced, and `"5:30"` normalizes to
`0`, not `5 + 30/60`. -/
theorem timeColonClaim_false : ¬ timeColonClaim := by
  intro h
  have happ := h [Cell.str "5:30".toList, Cell.str "DNP".toList] 0
    "5:30".toList "5".toList "30".toList 5 30
    (by decide) (by decide) (by decide) (by decide) (by decide)
    (by decide) (by decide) (by decide)
  have h0 : (minutes_decimal
      [Cell.str "5:30".toList, Cell.str "DNP".toList])[0]? = some (0 : ℚ) := by
    with_unfolding_all decide
  rw [h0] at happ
  have := Option.some.inj happ
  exact absurd this (by norm_num)

/-- C1 (amended): for a row whose cell is a textual `"M:SS"` value
(`M ≥ 0`, `0 ≤ SS < 60`), the Time Normalizer produces exactly `M + SS/60`
minutes for that row, provided every cell of the column converts per-cell
(no cell makes `Series.apply` raise); otherwise the blanket-coercion
fallback applies to the whole column. -/
theorem minutes_decimal_colon_exact (cells : List Cell) (i : ℕ)
    (s a b : List Char) (m ss : ℤ)
    (hall : allConvertible cells = true)
    (hc : cells[i]? = some (Cell.str s)) (hcolon : ':' ∈ s)
    (hsplit : splitOnChar ':' s = [a, b])
    (ha : pyInt a = some m) (hb : pyInt b = some ss)
    (_hm : 0 ≤ m) (_hss : 0 ≤ ss) (_hlt : ss < 60) :
    (minutes_decimal cells)[i]? = some ((m : ℚ) + (ss : ℚ) / 60) := by
  have hobj : isObjectDtype cells = true :=
    isObjectDtype_of_mem (List.getElem?_mem hc)
  rw [minutes_decimal_convert_eq hobj hall, List.getElem?_map, hc]
  unfold cellConvert
  dsimp only [Option.map_some']
  rw [if_pos hcolon]
  unfold colonParse
  rw [hsplit]
  dsimp only
  rw [ha, hb]
  rfl

/-- Witness for `minutes_decimal_colon_exact` at the concrete column
`["32:30", 10]`. -/
theorem minutes_decimal_colon_exact_witness :
    (minutes_decimal [Cell.str "32:30".toList, Cell.num 10])[0]? =
      some ((32 : ℚ) + (30 : ℚ) / 60) :=
  minutes_decimal_colon_exact [Cell.str "32:30".toList, Cell.num 10] 0
    "32:30".toList "32".toList "30".toList 32 30
    (by decide) (by decide) (by decide) (by decide) (by decide)
    (by decide) (by decide) (by decide) (by decide)

/-! ## C8: missing and unparseable non-colon values normalize to 0 -/

/-- C8: a row whose time value is missing, or is a non-numeric string with
no colon separator (e.g. `"DNP"`), normalizes to `0` minutes; the
normalizer is a total function, so the run continues. -/
theorem minutes_decimal_unparseable_zero (cells : List Cell) (i : ℕ)
    (h : cells[i]? = some Cell.na ∨
      ∃ s, cells[i]? = some (Cell.str s) ∧ ':' ∉ s ∧ pyFloat s = none) :
    (minutes_decimal cells)[i]? = some 0 := by
  rcases h with hna | ⟨s, hs, hns, hpf⟩
  · unfold minutes_decimal
    by_cases hobj : isObjectDtype cells = true
    · by_cases hall : allConvertible cells = true
      · simp only [hobj, hall, if_true, List.getElem?_map, hna]
        rfl
      · simp only [hobj, Bool.of_not_eq_true hall, if_true, Bool.false_eq_true,
          if_false, List.getElem?_map, hna]
        rfl
    · simp only [Bool.of_not_eq_true hobj, Bool.false_eq_true, if_false,
        List.getElem?_map, hna]
      rfl
  · have hmem : Cell.str s ∈ cells := List.getElem?_mem hs
    have hall : allConvertible cells = false :=
      allConvertible_eq_false hmem (cellConvert_str_fails hns hpf)
    rw [minutes_decimal_coerce_eq hall, List.getElem?_map, hs]
    unfold coerceCell
    dsimp only [Option.map_some']
    rw [hpf]
    rfl

/-- Witness for `minutes_decimal_unparseable_zero`: a `"DNP"` cell after a
numeric cell normalizes to `0`. -/
theorem minutes_decimal_unparseable_zero_witness :
    (minutes_decimal [Cell.num 12, Cell.str "DNP".toList])[1]? = some 0 :=
  minutes_decimal_unparseable_zero [Cell.num 12, Cell.str "DNP".toList] 1
    (Or.inr ⟨"DNP".toList, by decide, by decide, by decide⟩)

/-! ## C9: the normalizer's output is not always non-negative -/

/-- C9 (counterexample): a negative numeric time value passes straight
through, so the output is not always non-negative. -/
theorem timeNonnegClaim_false : ¬ timeNonnegClaim := by
  intro h
  have hmem : (-3 : ℚ) ∈ minutes_decimal [Cell.num (-3)] := by
    with_unfolding_all decide
  have := h [Cell.num (-3)] (-3) hmem
  exact absurd this (by norm_num)

/-- C9 (amended): the Time Normalizer's output is a rational number of
minutes, non-negative whenever every cell's encoded numeric content is
non-negative (`cellNonnegB`); negative numeric values or negative parsed
components pass through with their sign. -/
theorem minutes_decimal_nonneg_of_nonneg_cells (cells : List Cell)
    (h : cells.all cellNonnegB = true) :
    ∀ q ∈ minutes_decimal cells, 0 ≤ q := by
  intro q hq
  have hcell : ∀ c ∈ cells, cellNonnegB c = true := List.all_eq_true.mp h
  have hcoerce : ∀ c ∈ cells, 0 ≤ coerceCell c := by
    intro c hcm
    have hnn := hcell c hcm
    cases c with
    | na => exact le_refl 0
    | num q2 =>
      unfold cellNonnegB at hnn
      exact of_decide_eq_true hnn
    | str s =>
      unfold cellNonnegB at hnn
      have hf := (Bool.and_eq_true _ _).mp hnn |>.1
      unfold coerceCell
      cases hpf : pyFloat s with
      | none => simp [hpf]
      | some q2 =>
        rw [hpf] at hf
        simp only [Option.getD_some, hpf]
        exact of_decide_eq_true hf
  have hconv : ∀ c ∈ cells, 0 ≤ (cellConvert c).getD 0 := by
    intro c hcm
    have hnn := hcell c hcm
    cases c with
    | na => simp [cellConvert]
    | num q2 =>
      unfold cellNonnegB at hnn
      simpa [cellConvert] using of_decide_eq_true hnn
    | str s =>
      unfold cellNonnegB at hnn
      have hf := (Bool.and_eq_true _ _).mp hnn |>.1
      have hcp := (Bool.and_eq_true _ _).mp hnn |>.2
      unfold cellConvert
      dsimp only
      by_cases hcolon : ':' ∈ s
      · rw [if_pos hcolon]
        cases hc : colonParse s with
        | none => simp
        | some p =>
          rw [hc] at hcp
          have hm := of_decide_eq_true ((Bool.and_eq_true _ _).mp hcp |>.1)
          have hss := of_decide_eq_true ((Bool.and_eq_true _ _).mp hcp |>.2)
          simp only [Option.map_some', Option.getD_some]
          have h1 : (0 : ℚ) ≤ (p.1 : ℚ) := by exact_mod_cast hm
          have h2 : (0 : ℚ) ≤ (p.2 : ℚ) := by exact_mod_cast hss
          have h3 : (0 : ℚ) ≤ (p.2 : ℚ) / 60 := by positivity
          linarith
      · rw [if_neg hcolon]
        cases hpf : pyFloat s with
        | none => simp
        | some q2 =>
          rw [hpf] at hf
          simp only [Option.getD_some]
          exact of_decide_eq_true hf
  unfold minutes_decimal at hq
  by_cases hobj : isObjectDtype cells = true
  · by_cases hall : allConvertible cells = true
    · rw [hobj, hall] at hq
      simp only [if_true] at hq
      rcases List.mem_map.mp hq with ⟨c, hcm, rfl⟩
      exact hconv c hcm
    · rw [hobj, Bool.of_not_eq_true hall] at hq
      simp only [if_true, Bool.false_eq_true, if_false] at hq
      rcases List.mem_map.mp hq with ⟨c, hcm, rfl⟩
      exact hcoerce c hcm
  · rw [Bool.of_not_eq_true hobj] at hq
    simp only [Bool.false_eq_true, if_false] at hq
    rcases List.mem_map.mp hq with ⟨c, hcm, rfl⟩
    exact hcoerce c hcm

/-- Witness for `minutes_decimal_nonneg_of_nonneg_cells` on the column
`[NA, "32:30", 5]`. -/
theorem minutes_decimal_nonneg_of_nonneg_cells_witness :
    (0 : ℚ) ≤ (65 / 2 : ℚ) :=
  minutes_decimal_nonneg_of_nonneg_cells
    [Cell.na, Cell.str "32:30".toList, Cell.num 5]
    (by with_unfolding_all decide) (65 / 2)
    (by with_unfolding_all decide)

/-! ## C10: one bad cell zeroes every colon-format entry of the column -/

/-- C10: if some cell of the column is a string with no colon that does not
parse as a number, the per-cell conversion raises and the whole column is
blanket-coerced, so every `"M:SS"`-format entry (which `pd.to_numeric`
cannot parse) normalizes to `0` instead of `M + SS/60`. -/
theorem minutes_decimal_fallback_zeroes_colon (cells : List Cell) (i : ℕ)
    (s : List Char)
    (hbad : ∃ s0, Cell.str s0 ∈ cells ∧ ':' ∉ s0 ∧ pyFloat s0 = none)
    (hc : cells[i]? = some (Cell.str s)) (hcolon : ':' ∈ s) :
    (minutes_decimal cells)[i]? = some 0 := by
  rcases hbad with ⟨s0, hmem0, hns0, hpf0⟩
  have hall : allConvertible cells = false :=
    allConvertible_eq_false hmem0 (cellConvert_str_fails hns0 hpf0)
  rw [minutes_decimal_coerce_eq hall, List.getElem?_map, hc]
  unfold coerceCell
  dsimp only [Option.map_some']
  rw [pyFloat_colon_none hcolon]
  rfl

/-- Witness for `minutes_decimal_fallback_zeroes_colon`: with `"DNP"` in
row 0, the `"32:30"` entry of row 1 normalizes to `0`. -/
theorem minutes_decimal_fallback_zeroes_colon_witness :
    (minutes_decimal [Cell.str "DNP".toList, Cell.str "32:30".toList])[1]? =
      some 0 :=
  minutes_decimal_fallback_zeroes_colon
    [Cell.str "DNP".toList, Cell.str "32:30".toList] 1 "32:30".toList
    ⟨"DNP".toList, by decide, by decide, by decide⟩ (by decide) (by decide)

/-! ## C2: the Entity Filter is first-match-wins over four strategies -/

/-- C2: the Entity Filter returns the result of the first of the four
strategies (id, exact name, substring name, abbreviation — a missing
column yields zero rows) that produces at least one row, and aborts with
`EntityNotFoundError` (never an empty success) exactly when all four
produce zero rows. -/
theorem df_lva_first_strategy (t : BoxTable) :
    df_lva t =
      match firstHit t with
      | some l => Except.ok l
      | none => Except.error (RunError.entityNotFound (teamColsOf t)) := by
  by_cases hc1 : "team_id" ∈ t.cols <;>
  by_cases hc2 : "team_display_name" ∈ t.cols <;>
  by_cases hc3 : "team_abbreviation" ∈ t.cols <;>
  by_cases h1 : t.rows.filter byIdPred = [] <;>
  by_cases h2 : t.rows.filter byNamePred = [] <;>
  by_cases h3 : t.rows.filter byFragPred = [] <;>
  by_cases h4 : t.rows.filter byAbbrPred = [] <;>
  simp [df_lva, firstHit, strat1, strat2, strat3, strat4, List.find?,
    hc1, hc2, hc3, h1, h2, h3, h4]

/-- Witness for `df_lva_first_strategy` on a one-row table matched by the
id strategy. -/
theorem df_lva_first_strategy_witness :
    df_lva ⟨["team_id"], [⟨"16".toList, none, "LV".toList⟩]⟩ =
      Except.ok [⟨"16".toList, none, "LV".toList⟩] :=
  (df_lva_first_strategy ⟨["team_id"], [⟨"16".toList, none, "LV".toList⟩]⟩).trans
    (by decide)

/-! ## C3: required-field checking is incomplete in the code -/

/-- C3 (counterexample): the claim as stated is false — with columns
`["athlete_id", "athlete_display_name", "min"]` the game-id role is
unresolvable, yet the pre-aggregation schema check succeeds instead of
aborting with a field-reporting configuration error. -/
theorem requiredFieldsClaim_false : ¬ requiredFieldsClaim := by
  intro h
  rcases h ["athlete_id", "athlete_display_name", "min"]
      (Or.inr (Or.inr (Or.inr (by decide)))) with ⟨e, he, _⟩
  have hok : resolveSchema ["athlete_id", "athlete_display_name", "min"] =
      Except.ok ("athlete_id", "athlete_display_name", "min") := by decide
  rw [hok] at he
  cases he

/-- C3 (amended): only the player id, display name, and time-played roles
are checked before aggregation.  A missing id or name aborts with an error
reporting the available field names; a missing time-played column aborts
with an error that reports no field names; a missing game identifier is
not detected before aggregation and surfaces only as a pandas `KeyError`
when the aggregation runs. -/
theorem resolveSchema_spec (cols : List String) (rows : List Row) :
    ((findFirstCol ID_ALIASES cols = none ∨ findFirstCol NAME_ALIASES cols = none) ↔
      resolveSchema cols = Except.error (RunError.missingIdName cols))
    ∧ ((¬(findFirstCol ID_ALIASES cols = none ∨ findFirstCol NAME_ALIASES cols = none) ∧
        findFirstCol MIN_ALIASES cols = none) ↔
      resolveSchema cols = Except.error RunError.missingMinutes)
    ∧ ("game_id" ∉ cols →
      aggregateStep cols rows = Except.error (RunError.keyError "game_id")) := by
  have hagg : "game_id" ∉ cols →
      aggregateStep cols rows = Except.error (RunError.keyError "game_id") := by
    intro h
    unfold aggregateStep
    rw [if_neg h]
  refine ⟨?_, ?_, hagg⟩ <;>
  · cases hid : findFirstCol ID_ALIASES cols <;>
    cases hname : findFirstCol NAME_ALIASES cols <;>
    cases hmin : findFirstCol MIN_ALIASES cols <;>
    simp [resolveSchema, hid, hname, hmin]

/-- Witness for `resolveSchema_spec`: with id, name, and minutes columns
present but no `game_id`, schema resolution passes and aggregation fails
with a `KeyError`. -/
theorem resolveSchema_spec_witness :
    aggregateStep ["athlete_id", "athlete_display_name", "min"] [] =
      Except.error (RunError.keyError "game_id") :=
  (resolveSchema_spec ["athlete_id", "athlete_display_name", "min"] []).2.2
    (by decide)

/-! ## C4: games counts distinct game identifiers -/

/-- C4: in every Player Summary, `games` is the number of distinct game
identifiers among that player's rows — not the row count — even when the
player has several rows for the same game. -/
theorem player_summary_games_distinct (rows : List Row) (s : Summary)
    (hs : s ∈ player_summary rows) :
    s.games = ((rows.filter (fun r =>
      decide (rowKey r = (s.player_id, s.player_name)))).map
        Row.game_id).toFinset.card := by
  rcases List.mem_map.mp hs with ⟨k, _, rfl⟩
  dsimp only
  rw [List.card_toFinset]
  rfl

/-- Witness for `player_summary_games_distinct`: a player with two rows of
the same game has `games = 1` while owning 2 rows. -/
theorem player_summary_games_distinct_witness :
    (⟨1, "A".toList, 12, 1⟩ : Summary) ∈
      player_summary [⟨1, "A".toList, 10, 5⟩, ⟨1, "A".toList, 10, 7⟩] ∧
    (⟨1, "A".toList, 12, 1⟩ : Summary).games =
      (([⟨1, "A".toList, 10, 5⟩, ⟨1, "A".toList, 10, 7⟩] : List Row).filter
        (fun r => decide (rowKey r = (1, "A".toList))) |>.map
          Row.game_id).toFinset.card :=
  ⟨by with_unfolding_all decide,
   player_summary_games_distinct
     [⟨1, "A".toList, 10, 5⟩, ⟨1, "A".toList, 10, 7⟩]
     ⟨1, "A".toList, 12, 1⟩ (by with_unfolding_all decide)⟩

/-! ## C5: conservation of minutes -/

theorem sum_map_ite_eq {K : Type} [DecidableEq K] (ks : List K) (a : K)
    (m : ℚ) (hnd : ks.Nodup) (ha : a ∈ ks) :
    (ks.map (fun k => if a = k then m else 0)).sum = m := by
  induction ks with
  | nil => cases ha
  | cons k ks ih =>
    rcases List.mem_cons.mp ha with rfl | haks
    · simp only [List.map_cons, List.sum_cons, if_pos rfl]
      have hz : (ks.map (fun k2 => if a = k2 then m else 0)).sum = 0 := by
        apply List.sum_eq_zero
        intro x hx
        rcases List.mem_map.mp hx with ⟨k2, hk2, rfl⟩
        rw [if_neg]
        rintro rfl
        exact (List.nodup_cons.mp hnd).1 hk2
      rw [hz, add_zero]
      simp
    · have hne : a ≠ k := by
        rintro rfl
        exact (List.nodup_cons.mp hnd).1 haks
      simp only [List.map_cons, List.sum_cons, if_neg hne]
      rw [zero_add]
      exact ih (List.nodup_cons.mp hnd).2 haks

theorem sum_minutes_partition (rows : List Row) (ks : List (ℤ × List Char))
    (hnd : ks.Nodup) (hcov : ∀ r ∈ rows, rowKey r ∈ ks) :
    (ks.map (fun k =>
      ((groupRows rows k).map Row.minutes_decimal_val).sum)).sum =
      (rows.map Row.minutes_decimal_val).sum := by
  induction rows with
  | nil => simp [groupRows]
  | cons r rest ih =>
    have hcov2 : ∀ x ∈ rest, rowKey x ∈ ks := fun x hx =>
      hcov x (List.mem_cons_of_mem _ hx)
    have hstep : ∀ k, ((groupRows (r :: rest) k).map Row.minutes_decimal_val).sum =
        (if rowKey r = k then r.minutes_decimal_val else 0) +
          ((groupRows rest k).map Row.minutes_decimal_val).sum := by
      intro k
      unfold groupRows
      by_cases hk : rowKey r = k
      · simp [List.filter_cons, hk]
      · simp [List.filter_cons, hk]
    calc (ks.map (fun k =>
            ((groupRows (r :: rest) k).map Row.minutes_decimal_val).sum)).sum
        = (ks.map (fun k =>
            (if rowKey r = k then r.minutes_decimal_val else 0) +
              ((groupRows rest k).map Row.minutes_decimal_val).sum)).sum := by
          exact congrArg List.sum (List.map_congr_left (fun k _ => hstep k))
      _ = (ks.map (fun k =>
            if rowKey r = k then r.minutes_decimal_val else 0)).sum +
          (ks.map (fun k =>
            ((groupRows rest k).map Row.minutes_decimal_val).sum)).sum :=
          List.sum_map_add
      _ = r.minutes_decimal_val + (rest.map Row.minutes_decimal_val).sum := by
          rw [sum_map_ite_eq ks (rowKey r) _ hnd (hcov r (List.mem_cons_self _ _)),
            ih hcov2]
      _ = ((r :: rest).map Row.minutes_decimal_val).sum := by simp

/-- C5: the sum of `total_minutes` over all Player Summaries equals the sum
of the normalized per-row minutes over the filtered row set. -/
theorem player_summary_minutes_conservation (rows : List Row) :
    ((player_summary rows).map Summary.total_minutes).sum =
      (rows.map Row.minutes_decimal_val).sum := by
  unfold player_summary
  rw [List.map_map]
  exact sum_minutes_partition rows (rows.map rowKey).dedup
    (List.nodup_dedup _)
    (fun r hr => List.mem_dedup.mpr (List.mem_map_of_mem rowKey hr))

/-! ## C7: only two of the three shooting percentages are derived -/

/-- C7 (counterexample): the claim as stated is false — with only the
free-throw pair present the Metric Deriver emits no percentage column at
all, and with `fgm = 2, fga = 0` the field-goal percentage is `+inf`
(which pandas does not treat as null), not null. -/
theorem shootingPctClaim_false :
    ¬ shootingPctClaim ∧
    detailed_stats_pcts ["free_throws_made", "free_throws_attempted"]
      (fun _ => 1) = [] ∧
    detailed_stats_pcts ["fgm", "fga"]
      (fun c => if c = "fgm" then 2 else 0) = [("fg_pct", PdFloat.inf)] := by
  refine ⟨?_, by decide, by with_unfolding_all decide⟩
  intro h
  have hft := (h ["free_throws_made", "free_throws_attempted"]
    (fun _ => 1)).2.2 (by decide)
  have hnone : (detailed_stats_pcts
      ["free_throws_made", "free_throws_attempted"]
      (fun _ => 1)).lookup "ft_pct" = none := by decide
  rw [hnone] at hft
  cases hft

/-- C7 (amended): only the field-goal and three-point pairs produce
percentage columns, each checked long alias spelling first and short
spelling second; no free-throw percentage column is ever produced.  A
produced percentage equals `made / attempted` exactly when `attempted ≠ 0`;
when `attempted = 0` it is NaN (null) if `made = 0` and a signed infinity
(not null) otherwise. -/
theorem detailed_stats_pcts_spec (cols : List String) (sums : String → ℚ) :
    (("field_goals_made" ∈ cols ∧ "field_goals_attempted" ∈ cols) →
      (detailed_stats_pcts cols sums).lookup "fg_pct" =
        some (pdDiv (sums "field_goals_made") (sums "field_goals_attempted")))
    ∧ (¬("field_goals_made" ∈ cols ∧ "field_goals_attempted" ∈ cols) →
       ("fgm" ∈ cols ∧ "fga" ∈ cols) →
      (detailed_stats_pcts cols sums).lookup "fg_pct" =
        some (pdDiv (sums "fgm") (sums "fga")))
    ∧ (¬("field_goals_made" ∈ cols ∧ "field_goals_attempted" ∈ cols) →
       ¬("fgm" ∈ cols ∧ "fga" ∈ cols) →
      (detailed_stats_pcts cols sums).lookup "fg_pct" = none)
    ∧ (("three_point_field_goals_made" ∈ cols ∧
        "three_point_field_goals_attempted" ∈ cols) →
      (detailed_stats_pcts cols sums).lookup "fg3_pct" =
        some (pdDiv (sums "three_point_field_goals_made")
          (sums "three_point_field_goals_attempted")))
    ∧ (¬("three_point_field_goals_made" ∈ cols ∧
         "three_point_field_goals_attempted" ∈ cols) →
       ("fg3m" ∈ cols ∧ "fg3a" ∈ cols) →
      (detailed_stats_pcts cols sums).lookup "fg3_pct" =
        some (pdDiv (sums "fg3m") (sums "fg3a")))
    ∧ (¬("three_point_field_goals_made" ∈ cols ∧
         "three_point_field_goals_attempted" ∈ cols) →
       ¬("fg3m" ∈ cols ∧ "fg3a" ∈ cols) →
      (detailed_stats_pcts cols sums).lookup "fg3_pct" = none)
    ∧ ((detailed_stats_pcts cols sums).lookup "ft_pct" = none)
    ∧ (∀ m a : ℚ, a ≠ 0 → pdDiv m a = PdFloat.val (m / a))
    ∧ (pdDiv 0 0 = PdFloat.nan)
    ∧ (∀ m : ℚ, 0 < m → pdDiv m 0 = PdFloat.inf) := by
  have hdiv : ∀ m a : ℚ, a ≠ 0 → pdDiv m a = PdFloat.val (m / a) := by
    intro m a h
    unfold pdDiv
    rw [if_neg h]
  have hnan : pdDiv 0 0 = PdFloat.nan := by
    unfold pdDiv
    rw [if_pos rfl, if_pos rfl]
  have hinf : ∀ m : ℚ, 0 < m → pdDiv m 0 = PdFloat.inf := by
    intro m h
    unfold pdDiv
    rw [if_pos rfl, if_neg (ne_of_gt h), if_pos h]
  refine ⟨?_, ?_, ?_, ?_, ?_, ?_, ?_, hdiv, hnan, hinf⟩
  · intro h
    unfold detailed_stats_pcts
    rw [if_pos h]
    rfl
  · intro hno h
    unfold detailed_stats_pcts
    rw [if_neg hno, if_pos h]
    rfl
  · intro hno1 hno2
    unfold detailed_stats_pcts
    rw [if_neg hno1, if_neg hno2]
    by_cases h3 : "three_point_field_goals_made" ∈ cols ∧
        "three_point_field_goals_attempted" ∈ cols
    · rw [if_pos h3]
      rfl
    · rw [if_neg h3]
      by_cases h3s : "fg3m" ∈ cols ∧ "fg3a" ∈ cols
      · rw [if_pos h3s]
        rfl
      · rw [if_neg h3s]
        rfl
  · intro h
    unfold detailed_stats_pcts
    rw [if_pos h]
    by_cases h1 : "field_goals_made" ∈ cols ∧ "field_goals_attempted" ∈ cols
    · rw [if_pos h1]
      rfl
    · rw [if_neg h1]
      by_cases h1s : "fgm" ∈ cols ∧ "fga" ∈ cols
      · rw [if_pos h1s]
        rfl
      · rw [if_neg h1s]
        rfl
  · intro hno h
    unfold detailed_stats_pcts
    rw [if_neg hno, if_pos h]
    by_cases h1 : "field_goals_made" ∈ cols ∧ "field_goals_attempted" ∈ cols
    · rw [if_pos h1]
      rfl
    · rw [if_neg h1]
      by_cases h1s : "fgm" ∈ cols ∧ "fga" ∈ cols
      · rw [if_pos h1s]
        rfl
      · rw [if_neg h1s]
        rfl
  · intro hno1 hno2
    unfold detailed_stats_pcts
    rw [if_neg hno1, if_neg hno2]
    by_cases h1 : "field_goals_made" ∈ cols ∧ "field_goals_attempted" ∈ cols
    · rw [if_pos h1]
      rfl
    · rw [if_neg h1]
      by_cases h1s : "fgm" ∈ cols ∧ "fga" ∈ cols
      · rw [if_pos h1s]
        rfl
      · rw [if_neg h1s]
        rfl
  · unfold detailed_stats_pcts
    by_cases h1 : "field_goals_made" ∈ cols ∧ "field_goals_attempted" ∈ cols
    · rw [if_pos h1]
      by_cases h3 : "three_point_field_goals_made" ∈ cols ∧
          "three_point_field_goals_attempted" ∈ cols
      · rw [if_pos h3]
        rfl
      · rw [if_neg h3]
        by_cases h3s : "fg3m" ∈ cols ∧ "fg3a" ∈ cols
        · rw [if_pos h3s]
          rfl
        · rw [if_neg h3s]
          rfl
    · rw [if_neg h1]
      by_cases h1s : "fgm" ∈ cols ∧ "fga" ∈ cols <;>
        [rw [if_pos h1s]; rw [if_neg h1s]] <;>
      · by_cases h3 : "three_point_field_goals_made" ∈ cols ∧
            "three_point_field_goals_attempted" ∈ cols
        · rw [if_pos h3]
          rfl
        · rw [if_neg h3]
          by_cases h3s : "fg3m" ∈ cols ∧ "fg3a" ∈ cols
          · rw [if_pos h3s]
            rfl
          · rw [if_neg h3s]
            rfl

/-- Witness for `detailed_stats_pcts_spec`: short-alias field-goal pair
with symbolic-free sums. -/
theorem detailed_stats_pcts_spec_witness :
    (detailed_stats_pcts ["fgm", "fga"]
      (fun c => if c = "fgm" then (1 : ℚ) else 4)).lookup "fg_pct" =
      some (pdDiv 1 4) :=
  (detailed_stats_pcts_spec ["fgm", "fga"]
    (fun c => if c = "fgm" then (1 : ℚ) else 4)).2.1 (by decide) (by decide)
